import Mathlib

/-!
Verification of the comparePage selector module (mlab-vis-client).

The definitions below are a shallow embedding of the selectors file
(src/redux/comparePage/selectors.js).  Entity ids are modelled as natural
numbers; JS undefined/null is modelled with Option; JS objects are modelled
with Lean structures.  External collaborators that live outside the embedded
file (the facet-type catalog, the status module, the composite-key makers)
are modelled from the specification and marked as such in their doc comments.
-/

namespace CompareSel

/-- Entity ids (locations, client ISPs, transit ISPs). -/
abbrev Id := Nat

/-- Fetch status of a resource.
Modelled from the spec: Status is one of not-fetched, fetching, success,
error. -/
inductive Status where
  | notFetched
  | fetching
  | success
  | error
deriving DecidableEq, Repr

/-- A fetchable resource: a status together with optional data. -/
structure Resource (α : Type) where
  status : Status
  data : Option α
deriving DecidableEq, Repr

/-- Modelled from the spec: the external status combinator over a sequence of
statuses, with precedence error, then fetching, then not-fetched, then
success. -/
def statusList (l : List Status) : Status :=
  if l.contains Status.error then Status.error
  else if l.contains Status.fetching then Status.fetching
  else if l.contains Status.notFetched then Status.notFetched
  else Status.success

/-- Modelled from the spec: the external status module applied to a single
fetchable resource reports the load state of that resource. -/
def statusRes {α : Type} (r : Resource α) : Status :=
  r.status

/-- An entry of the facet-type catalog.
Modelled from the spec: the catalog entries carry a value string and the
id-key string used to read an entity id off raw store items. -/
structure FacetType where
  value : String
  idKey : String
deriving DecidableEq, Repr

/-- The location catalog entry (first entry of the catalog). -/
def locationFacetType : FacetType := { value := "location", idKey := "locationId" }

/-- The client ISP catalog entry. -/
def clientIspFacetType : FacetType := { value := "clientIsp", idKey := "clientIspId" }

/-- The transit ISP catalog entry. -/
def transitIspFacetType : FacetType := { value := "transitIsp", idKey := "transitIspId" }

/-- Modelled from the spec: the static facet-type catalog lists the three
dimension kinds, location first (unknown values fall back to the first
entry). -/
def facetTypes : List FacetType :=
  [locationFacetType, clientIspFacetType, transitIspFacetType]

/-- extractFacetType from the source: find the catalog entry whose value
matches, falling back to the first catalog entry (location) when the value is
unknown or absent. -/
def extractFacetType (facetTypeValue : Option String) : FacetType :=
  match facetTypes.find? (fun facetType => some facetType.value == facetTypeValue) with
  | some facetType => facetType
  | none => locationFacetType

/-- The props consumed by the selectors: raw facet type value, facet item
ids, the two filter id lists and the breakdownBy value, each possibly
absent. -/
structure Props where
  facetType : Option String
  facetItemIds : Option (List Id)
  filter1Ids : Option (List Id)
  filter2Ids : Option (List Id)
  breakdownBy : Option String
deriving DecidableEq, Repr

/-- getFacetType from the source: resolve the raw facet type value through
extractFacetType. -/
def getFacetType (p : Props) : FacetType :=
  extractFacetType p.facetType

/-- getFilterTypes from the source: which catalog entries play filter1 and
filter2 for the resolved facet type. -/
def getFilterTypes (p : Props) : List FacetType :=
  let facetType := getFacetType p
  if facetType.value = "location" then
    [extractFacetType (some "clientIsp"), extractFacetType (some "transitIsp")]
  else if facetType.value = "clientIsp" then
    [extractFacetType (some "location"), extractFacetType (some "transitIsp")]
  else if facetType.value = "transitIsp" then
    [extractFacetType (some "location"), extractFacetType (some "clientIsp")]
  else
    []

/-- Composite keys built by the external makeId modules.
Modelled from the spec: the Identity Combiner builds a deterministic,
collision-free composite key from the 2 or 3 entity ids given in canonical
dimension order; it is modelled here as the tuple of those ids. -/
inductive CombinedKey where
  | locationClientIsp (locationId clientIspId : Id)
  | locationTransitIsp (locationId transitIspId : Id)
  | clientIspTransitIsp (clientIspId transitIspId : Id)
  | locationClientIspTransitIsp (locationId clientIspId transitIspId : Id)
deriving DecidableEq, Repr

/-- The id a composite key holds for a given dimension name, if any. -/
def keyComp (k : CombinedKey) (dim : String) : Option Id :=
  match k with
  | CombinedKey.locationClientIsp l c =>
    if dim = "location" then some l else if dim = "clientIsp" then some c else none
  | CombinedKey.locationTransitIsp l t =>
    if dim = "location" then some l else if dim = "transitIsp" then some t else none
  | CombinedKey.clientIspTransitIsp c t =>
    if dim = "clientIsp" then some c else if dim = "transitIsp" then some t else none
  | CombinedKey.locationClientIspTransitIsp l c t =>
    if dim = "location" then some l
    else if dim = "clientIsp" then some c
    else if dim = "transitIsp" then some t
    else none

/-- One entry of the combination list built by getCombinedTypeAndIds: the
fields pushed for each generated combination.  The 2-dimension cases leave
breakdownByItemId absent. -/
structure CombinedId where
  facetItemId : Id
  filterItemId : Id
  breakdownByItemId : Option Id
  combined : CombinedKey
deriving DecidableEq, Repr

/-- An element of the combined array built inside getCombinedTypeAndIds: the
dimension value, the role it occupies, its breakdownBy flag (absent for the
facet entry), its id list, and its sort key. -/
structure CombinedEntry where
  value : String
  type : String
  breakdownBy : Option Bool
  ids : List Id
  sort : Nat
deriving DecidableEq, Repr

/-- The sortValues table used by getCombinedTypeAndIds; only the three
dimension names ever reach it. -/
def sortValues (v : String) : Nat :=
  if v = "location" then 0 else if v = "clientIsp" then 1 else 2

/-- Truthiness of a filter id list in the source condition
(filterIds and filterIds.length): present and non-empty. -/
def idsActive : Option (List Id) → Bool
  | some (_ :: _) => true
  | _ => false

/-- Insert an entry into a list sorted by the numeric sort key (the
comparator of the source sort call). -/
def insertEntry (e : CombinedEntry) : List CombinedEntry → List CombinedEntry
  | [] => [e]
  | x :: xs => if x.sort ≤ e.sort then x :: insertEntry e xs else e :: x :: xs

/-- Sort the combined array by the sort key, as the source comparator
(a, b) => a.sort - b.sort does. -/
def sortCombined (l : List CombinedEntry) : List CombinedEntry :=
  l.foldl (fun acc e => insertEntry e acc) []

/-- The dash-join of the sorted dimension names, as map(d => d.value)
followed by join with a dash. -/
def joinDash : List String → String
  | [] => ""
  | [s] => s
  | s :: rest => s ++ "-" ++ joinDash rest

/-- Build the combined array: the facet entry always, then filter1 and
filter2 entries when their id lists are non-empty, with their breakdownBy
flags. -/
def combinedEntries (facetType : FacetType) (facetItemIds : Option (List Id))
    (filter1Type filter2Type : FacetType) (filter1Ids filter2Ids : Option (List Id))
    (breakdownBy : Option String) : List CombinedEntry :=
  let base : List CombinedEntry :=
    [{ value := facetType.value, type := "facet", breakdownBy := none,
       ids := facetItemIds.getD [], sort := sortValues facetType.value }]
  let withF1 :=
    if idsActive filter1Ids then
      base ++ [{ value := filter1Type.value, type := "filter1",
                 breakdownBy := some (breakdownBy == some "filter1"),
                 ids := filter1Ids.getD [], sort := sortValues filter1Type.value }]
    else base
  if idsActive filter2Ids then
    withF1 ++ [{ value := filter2Type.value, type := "filter2",
                 breakdownBy := some (breakdownBy == some "filter2"),
                 ids := filter2Ids.getD [], sort := sortValues filter2Type.value }]
  else withF1

/-- The output of getCombinedTypeAndIds. -/
structure CombinedTypeAndIds where
  combinedType : String
  combinedIds : List CombinedId
deriving DecidableEq, Repr

/-- Placeholder entry for the (unreachable) out-of-bounds indexing of the
sorted combined array. -/
def dummyEntry : CombinedEntry :=
  { value := "", type := "", breakdownBy := none, ids := [], sort := 0 }

/-- The body of getCombinedTypeAndIds: sort the active dimensions, join their
names into the combined type, and enumerate the cross product of ids for the
four recognized combined types, tagging each combination with facet, filter
and breakdown ids exactly as the source ternaries do. -/
def getCombinedTypeAndIdsCore (facetType : FacetType) (facetItemIds : Option (List Id))
    (filter1Type filter2Type : FacetType) (filter1Ids filter2Ids : Option (List Id))
    (breakdownBy : Option String) : CombinedTypeAndIds :=
  let sorted := sortCombined (combinedEntries facetType facetItemIds filter1Type filter2Type
    filter1Ids filter2Ids breakdownBy)
  let combinedType := joinDash (sorted.map (fun d => d.value))
  let combinedIds : List CombinedId :=
    if combinedType = "location-clientIsp" then
      let locations := sorted.getD 0 dummyEntry
      let clientIsps := sorted.getD 1 dummyEntry
      locations.ids.flatMap fun locationId =>
        clientIsps.ids.map fun clientIspId =>
          { facetItemId := if locations.type = "facet" then locationId else clientIspId,
            filterItemId := if locations.type ≠ "facet" then locationId else clientIspId,
            breakdownByItemId := none,
            combined := CombinedKey.locationClientIsp locationId clientIspId }
    else if combinedType = "location-transitIsp" then
      let locations := sorted.getD 0 dummyEntry
      let transitIsps := sorted.getD 1 dummyEntry
      locations.ids.flatMap fun locationId =>
        transitIsps.ids.map fun transitIspId =>
          { facetItemId := if locations.type = "facet" then locationId else transitIspId,
            filterItemId := if locations.type ≠ "facet" then locationId else transitIspId,
            breakdownByItemId := none,
            combined := CombinedKey.locationTransitIsp locationId transitIspId }
    else if combinedType = "clientIsp-transitIsp" then
      let clientIsps := sorted.getD 0 dummyEntry
      let transitIsps := sorted.getD 1 dummyEntry
      clientIsps.ids.flatMap fun clientIspId =>
        transitIsps.ids.map fun transitIspId =>
          { facetItemId := if clientIsps.type = "facet" then clientIspId else transitIspId,
            filterItemId := if clientIsps.type ≠ "facet" then clientIspId else transitIspId,
            breakdownByItemId := none,
            combined := CombinedKey.clientIspTransitIsp clientIspId transitIspId }
    else if combinedType = "location-clientIsp-transitIsp" then
      let locations := sorted.getD 0 dummyEntry
      let clientIsps := sorted.getD 1 dummyEntry
      let transitIsps := sorted.getD 2 dummyEntry
      locations.ids.flatMap fun locationId =>
        clientIsps.ids.flatMap fun clientIspId =>
          transitIsps.ids.map fun transitIspId =>
            { facetItemId :=
                if locations.type = "facet" then locationId
                else if clientIsps.type = "facet" then clientIspId
                else transitIspId,
              filterItemId :=
                if locations.breakdownBy = some false then locationId
                else if clientIsps.breakdownBy = some false then clientIspId
                else transitIspId,
              breakdownByItemId := some
                (if locations.breakdownBy = some true then locationId
                 else if clientIsps.breakdownBy = some true then clientIspId
                 else transitIspId),
              combined := CombinedKey.locationClientIspTransitIsp locationId clientIspId transitIspId }
    else []
  { combinedType := combinedType, combinedIds := combinedIds }

/-- getCombinedTypeAndIds as wired by the selector: the resolved facet type
and the two filter types feed the core computation.  The default branch is
unreachable because getFilterTypes always yields two entries. -/
def getCombinedTypeAndIds (p : Props) : CombinedTypeAndIds :=
  match getFilterTypes p with
  | [filter1Type, filter2Type] =>
    getCombinedTypeAndIdsCore (getFacetType p) p.facetItemIds filter1Type filter2Type
      p.filter1Ids p.filter2Ids p.breakdownBy
  | _ => { combinedType := "", combinedIds := [] }

/-- The active dimensions of a selection, in canonical sorted order, each
with its id list: the facet dimension always, plus every filter dimension
whose id list is non-empty. -/
def activeDims (p : Props) : List (String × List Id) :=
  match getFilterTypes p with
  | [filter1Type, filter2Type] =>
    (sortCombined (combinedEntries (getFacetType p) p.facetItemIds filter1Type filter2Type
      p.filter1Ids p.filter2Ids p.breakdownBy)).map (fun e => (e.value, e.ids))
  | _ => []


/-- The time block of a combined record: the time series and hourly
fetchable resources. -/
structure TimeBlock (A H : Type) where
  timeSeries : Resource A
  hourly : Resource H
deriving DecidableEq, Repr

/-- A combined record stored under a composite key, as consumed by the
aggregation step. -/
structure CombinedRecord (A H : Type) where
  time : TimeBlock A H
deriving DecidableEq, Repr

/-- An element of the getCombinedItems output: the combination record it was
generated from and the raw combined record found in the store. -/
structure CombinedItem (A H : Type) where
  id : CombinedId
  data : CombinedRecord A H
deriving DecidableEq, Repr

/-- The sourceMap of getCombinedItems: select the store matching the
combined type, if any. -/
def sourceMapLookup {A H : Type}
    (locationClientIsps locationTransitIsps clientIspTransitIsps locationClientIspTransitIsps :
      CombinedKey → Option (CombinedRecord A H)) (combinedType : String) :
    Option (CombinedKey → Option (CombinedRecord A H)) :=
  if combinedType = "location-clientIsp" then some locationClientIsps
  else if combinedType = "location-clientIsp-transitIsp" then some locationClientIspTransitIsps
  else if combinedType = "location-transitIsp" then some locationTransitIsps
  else if combinedType = "clientIsp-transitIsp" then some clientIspTransitIsps
  else none

/-- getCombinedItems from the source: look every combination up in the store
selected by combinedType and keep the entries whose record is present (the
source maps to records and filters out null data; rendered as filterMap).
With no matching store the result is empty. -/
def getCombinedItems {A H : Type} (ctai : CombinedTypeAndIds)
    (locationClientIsps locationTransitIsps clientIspTransitIsps locationClientIspTransitIsps :
      CombinedKey → Option (CombinedRecord A H)) : List (CombinedItem A H) :=
  match sourceMapLookup locationClientIsps locationTransitIsps clientIspTransitIsps
    locationClientIspTransitIsps ctai.combinedType with
  | some source =>
    ctai.combinedIds.filterMap fun id =>
      (source id.combined).map fun data => { id := id, data := data }
  | none => []

/-- Accumulator of the reduce inside combineTimeSeries. -/
structure TSAccum (A : Type) where
  statuses : List Status
  data : List A
deriving DecidableEq, Repr

/-- One reduce step of combineTimeSeries: push the status, and push the data
array when present. -/
def tsStep {A : Type} (combined : TSAccum A) (timeSeriesObject : Resource A) : TSAccum A :=
  { statuses := combined.statuses ++ [statusRes timeSeriesObject],
    data :=
      match timeSeriesObject.data with
      | some d => combined.data ++ [d]
      | none => combined.data }

/-- The combined object just before counts are attached (what the external
counting utility receives). -/
structure CombinedTSPre (A : Type) where
  statuses : List Status
  data : List A
  status : Status
deriving DecidableEq, Repr

/-- The combined time series produced per facet group: statuses, present
data arrays, overall status and the externally computed counts. -/
structure CombinedTS (A B : Type) where
  statuses : List Status
  data : List A
  status : Status
  counts : B
deriving DecidableEq, Repr

/-- combineTimeSeries from the source: extract each item's time series
resource, reduce statuses and present data arrays in order, compute the
overall status with the status combinator, and attach the counts computed by
the external computeTimeSeriesCounts utility (passed as a parameter). -/
def combineTimeSeries {A H B : Type} (computeTimeSeriesCounts : CombinedTSPre A → B)
    (itemsToCombine : List (CombinedItem A H)) : CombinedTS A B :=
  let timeSeriesToCombine := itemsToCombine.map fun item => item.data.time.timeSeries
  let combined := timeSeriesToCombine.foldl tsStep { statuses := [], data := [] }
  let overall := statusList combined.statuses
  { statuses := combined.statuses, data := combined.data, status := overall,
    counts := computeTimeSeriesCounts ⟨combined.statuses, combined.data, overall⟩ }

/-- One output entry of combineHourly: keyed by the filter item id, with the
raw hourly data, its status and the externally wrangled form. -/
structure HourlyEntry (H W : Type) where
  id : Id
  data : Option H
  status : Status
  wrangled : W
deriving DecidableEq, Repr

/-- combineHourly from the source: one entry per item, not merged (the
external wrangleHourly utility is passed as a parameter). -/
def combineHourly {A H M W : Type} (wrangleHourly : Option H → M → W)
    (itemsToCombine : List (CombinedItem A H)) (viewMetric : M) : List (HourlyEntry H W) :=
  itemsToCombine.map fun item =>
    { id := item.id.filterItemId,
      data := item.data.time.hourly.data,
      status := statusRes item.data.time.hourly,
      wrangled := wrangleHourly item.data.time.hourly.data viewMetric }

/-- The distinct keys of a list in order of first appearance (the key order
produced by the d3 nest grouping). -/
def uniqueKeys {K : Type} [DecidableEq K] : List K → List K
  | [] => []
  | k :: ks => k :: uniqueKeys (ks.filter fun x => x ≠ k)
termination_by l => l.length
decreasing_by
  simp only [List.length_cons]
  exact Nat.lt_succ_of_le (List.length_filter_le _ _)

/-- Group a list by a key function, keys in order of first appearance, each
group keeping the original item order (the d3 nest grouping). -/
def groupByKey {I K : Type} [DecidableEq K] (key : I → K) (items : List I) :
    List (K × List I) :=
  (uniqueKeys (items.map key)).map fun k => (k, items.filter fun i => key i = k)

/-- The grouping produced by combineData: one level keyed by facet item id,
or two levels with the breakdown item id inside (the 3-dimension case). -/
inductive Grouped (G : Type) where
  | flat : List (Id × G) → Grouped G
  | nested : List (Id × List (Option Id × G)) → Grouped G
deriving DecidableEq, Repr

/-- combineData from the source: undefined when combinedItems is absent or
empty; otherwise nest by facet item id (and by breakdown item id for the
3-dimension combined type) and replace each group with the combined
object. -/
def combineData {A H G M : Type} (combine : List (CombinedItem A H) → M → G)
    (combinedType : String) (combinedItems : Option (List (CombinedItem A H)))
    (viewMetric : M) : Option (Grouped G) :=
  match combinedItems with
  | none => none
  | some items =>
    if items.isEmpty then none
    else if combinedType = "location-clientIsp-transitIsp" then
      some (Grouped.nested
        ((groupByKey (fun item => item.id.facetItemId) items).map fun g =>
          (g.1, (groupByKey (fun item => item.id.breakdownByItemId) g.2).map fun g2 =>
            (g2.1, combine g2.2 viewMetric))))
    else
      some (Grouped.flat
        ((groupByKey (fun item => item.id.facetItemId) items).map fun g =>
          (g.1, combine g.2 viewMetric)))

/-- getCombinedTimeSeries from the source: combineData with the time series
combiner (which ignores the view metric). -/
def getCombinedTimeSeries {A H B M : Type} (computeTimeSeriesCounts : CombinedTSPre A → B)
    (combinedType : String) (combinedItems : Option (List (CombinedItem A H)))
    (viewMetric : M) : Option (Grouped (CombinedTS A B)) :=
  combineData (fun items _ => combineTimeSeries computeTimeSeriesCounts items) combinedType
    combinedItems viewMetric

/-- getCombinedHourly from the source: combineData with the hourly
combiner. -/
def getCombinedHourly {A H M W : Type} (wrangleHourly : Option H → M → W)
    (combinedType : String) (combinedItems : Option (List (CombinedItem A H)))
    (viewMetric : M) : Option (Grouped (List (HourlyEntry H W))) :=
  combineData (combineHourly wrangleHourly) combinedType combinedItems viewMetric

/-- A raw item of a top-N ranking list: a JS object modelled as an
association list from field name to id. -/
abbrev TopItem := List (String × Id)

/-- Read a field off a top item, as the JS bracket access does. -/
def objGet (d : TopItem) (k : String) : Option Id :=
  (d.find? fun kv => kv.1 == k).map fun kv => kv.2

/-- The JS includes test applied to a possibly absent field value: an absent
value is never included (the ids are numbers). -/
def jsIncludes (l : List Id) : Option Id → Bool
  | some x => l.contains x
  | none => false

/-- topKeyFromTypes from the source: the store key combining the filter type
(plural prefix) with the facet type (For suffix).  Only the three known
values ever reach it. -/
def topKeyFromTypes (facetType filterType : FacetType) : String :=
  let pre :=
    if filterType.value = "location" then "locations"
    else if filterType.value = "clientIsp" then "clientIsps"
    else if filterType.value = "transitIsp" then "transitIsps"
    else ""
  let suf :=
    if facetType.value = "location" then "ForLocations"
    else if facetType.value = "clientIsp" then "ForClientIsps"
    else if facetType.value = "transitIsp" then "ForTransitIsps"
    else ""
  pre ++ suf

/-- The result shape of topFilter. -/
structure TopFilterResult where
  data : List TopItem
  status : Status
deriving DecidableEq, Repr

/-- topFilter from the source: read the ranked list out of the top store
(empty when absent), compute its status, remove the already selected ids,
and keep only the first 20 entries. -/
def topFilter (topState : String → Resource (List TopItem))
    (facetType filterType : FacetType) (filterIds : List Id) : TopFilterResult :=
  let topKey := topKeyFromTypes facetType filterType
  let idKey := filterType.idKey
  let topItems := (topState topKey).data.getD []
  let statusStr := statusRes (topState topKey)
  let remaining := topItems.filter fun d => !jsIncludes filterIds (objGet d idKey)
  { data := remaining.take 20, status := statusStr }

/-- A combined record example used to exercise the join lookup. -/
def exStoreRecord : CombinedRecord Nat Nat :=
  { time := { timeSeries := { status := Status.success, data := some 0 },
              hourly := { status := Status.success, data := none } } }

/-- An example store holding exactly the composite key of location 1 with
client ISP 10. -/
def exStoreLci : CombinedKey → Option (CombinedRecord Nat Nat) :=
  fun k => if k = CombinedKey.locationClientIsp 1 10 then some exStoreRecord else none

/-- An example empty store. -/
def exStoreEmpty : CombinedKey → Option (CombinedRecord Nat Nat) :=
  fun _ => none

/-- An example combined type and ids pair with two combinations, only the
first of which is present in the example store. -/
def exCtai : CombinedTypeAndIds :=
  { combinedType := "location-clientIsp",
    combinedIds :=
      [{ facetItemId := 1, filterItemId := 10, breakdownByItemId := none,
         combined := CombinedKey.locationClientIsp 1 10 },
       { facetItemId := 1, filterItemId := 20, breakdownByItemId := none,
         combined := CombinedKey.locationClientIsp 1 20 }] }

/-- Twenty-five example top items carrying a client ISP id each. -/
def exTopItems : List TopItem :=
  (List.range 25).map fun i => [("clientIspId", i)]

/-- An example combined item whose time series resource errored. -/
def exErrItem : CombinedItem Nat Nat :=
  { id := { facetItemId := 1, filterItemId := 10, breakdownByItemId := none,
            combined := CombinedKey.locationClientIsp 1 10 },
    data := { time := { timeSeries := { status := Status.error, data := none },
                        hourly := { status := Status.success, data := none } } } }


/-- The resolved facet type is always one of the three catalog entries. -/
theorem getFacetType_cases (p : Props) :
    getFacetType p = locationFacetType ∨ getFacetType p = clientIspFacetType ∨
      getFacetType p = transitIspFacetType := by
  unfold getFacetType extractFacetType
  cases h : facetTypes.find? (fun facetType => some facetType.value == p.facetType) with
  | none => exact Or.inl rfl
  | some ft =>
    have hmem : ft ∈ facetTypes := List.mem_of_find?_eq_some h
    simp only [facetTypes, List.mem_cons, List.mem_singleton, List.not_mem_nil] at hmem
    rcases hmem with rfl | rfl | rfl | hmem
    · exact Or.inl rfl
    · exact Or.inr (Or.inl rfl)
    · exact Or.inr (Or.inr rfl)
    · exact absurd hmem (by simp)

/-- getFilterTypes always resolves to one of the three two-element lists,
matching the resolved facet type. -/
theorem getFilterTypes_cases (p : Props) :
    (getFacetType p = locationFacetType ∧
       getFilterTypes p = [clientIspFacetType, transitIspFacetType]) ∨
    (getFacetType p = clientIspFacetType ∧
       getFilterTypes p = [locationFacetType, transitIspFacetType]) ∨
    (getFacetType p = transitIspFacetType ∧
       getFilterTypes p = [locationFacetType, clientIspFacetType]) := by
  rcases getFacetType_cases p with h | h | h
  · exact Or.inl ⟨h, by unfold getFilterTypes; rw [h]; rfl⟩
  · exact Or.inr (Or.inl ⟨h, by unfold getFilterTypes; rw [h]; rfl⟩)
  · exact Or.inr (Or.inr ⟨h, by unfold getFilterTypes; rw [h]; rfl⟩)

/-- The combined type is the dash-join of the active dimension names. -/
theorem combinedType_eq_joinDash (p : Props) :
    (getCombinedTypeAndIds p).combinedType = joinDash ((activeDims p).map Prod.fst) := by
  unfold getCombinedTypeAndIds activeDims
  cases h : getFilterTypes p with
  | nil => rfl
  | cons t1 rest =>
    cases rest with
    | nil => rfl
    | cons t2 rest2 =>
      cases rest2 with
      | nil =>
        simp only [getCombinedTypeAndIdsCore, List.map_map]
        rfl
      | cons t3 rest3 => rfl

/-- A filter id list is active exactly when it is present and non-empty. -/
theorem idsActive_true_iff (o : Option (List Id)) :
    idsActive o = true ↔ ∃ x xs, o = some (x :: xs) := by
  cases o with
  | none => simp [idsActive]
  | some l => cases l with
    | nil => simp [idsActive]
    | cons x xs => simp [idsActive]

/-- A filter id list is inactive exactly when it is absent or empty. -/
theorem idsActive_false_iff (o : Option (List Id)) :
    idsActive o = false ↔ o = none ∨ o = some [] := by
  cases o with
  | none => simp [idsActive]
  | some l => cases l with
    | nil => simp [idsActive]
    | cons x xs => simp [idsActive]

/-- Facet location, no active filter: only the facet dimension remains, the
combined type is its bare name and no combination is generated. -/
theorem shape_loc_00 (p : Props)
    (hf : getFacetType p = locationFacetType)
    (hi1 : idsActive p.filter1Ids = false) (hi2 : idsActive p.filter2Ids = false) :
    getCombinedTypeAndIds p = { combinedType := "location", combinedIds := [] } ∧
    activeDims p = [("location", p.facetItemIds.getD [])] := by
  have hft : getFilterTypes p = [clientIspFacetType, transitIspFacetType] := by
    unfold getFilterTypes; rw [hf]; rfl
  rcases (idsActive_false_iff p.filter1Ids).mp hi1 with h1 | h1 <;>
    rcases (idsActive_false_iff p.filter2Ids).mp hi2 with h2 | h2 <;>
    constructor <;>
    · simp only [getCombinedTypeAndIds, activeDims]
      rw [hft, hf]
      simp +decide [getCombinedTypeAndIdsCore, combinedEntries, h1, h2, idsActive,
        locationFacetType, sortValues, sortCombined, insertEntry, joinDash, dummyEntry]

/-- Facet location with filter1 (client ISP) active: combined type
location-clientIsp, cross product of facet ids with filter1 ids. -/
theorem shape_loc_10 (p : Props) (b : Id) (bs : List Id)
    (hf : getFacetType p = locationFacetType)
    (h1 : p.filter1Ids = some (b :: bs)) (hi2 : idsActive p.filter2Ids = false) :
    getCombinedTypeAndIds p =
      { combinedType := "location-clientIsp",
        combinedIds :=
          (p.facetItemIds.getD []).flatMap fun locationId =>
            (b :: bs).map fun clientIspId =>
              { facetItemId := locationId, filterItemId := clientIspId,
                breakdownByItemId := none,
                combined := CombinedKey.locationClientIsp locationId clientIspId } } ∧
    activeDims p = [("location", p.facetItemIds.getD []), ("clientIsp", b :: bs)] := by
  have hft : getFilterTypes p = [clientIspFacetType, transitIspFacetType] := by
    unfold getFilterTypes; rw [hf]; rfl
  rcases (idsActive_false_iff p.filter2Ids).mp hi2 with h2 | h2 <;>
    constructor <;>
    · simp only [getCombinedTypeAndIds, activeDims]
      rw [hft, hf]
      simp +decide [getCombinedTypeAndIdsCore, combinedEntries, h1, h2, idsActive,
        locationFacetType, clientIspFacetType, sortValues, sortCombined, insertEntry, joinDash,
        dummyEntry]

/-- Facet location with filter2 (transit ISP) active: combined type
location-transitIsp, cross product of facet ids with filter2 ids. -/
theorem shape_loc_01 (p : Props) (c : Id) (cs : List Id)
    (hf : getFacetType p = locationFacetType)
    (hi1 : idsActive p.filter1Ids = false) (h2 : p.filter2Ids = some (c :: cs)) :
    getCombinedTypeAndIds p =
      { combinedType := "location-transitIsp",
        combinedIds :=
          (p.facetItemIds.getD []).flatMap fun locationId =>
            (c :: cs).map fun transitIspId =>
              { facetItemId := locationId, filterItemId := transitIspId,
                breakdownByItemId := none,
                combined := CombinedKey.locationTransitIsp locationId transitIspId } } ∧
    activeDims p = [("location", p.facetItemIds.getD []), ("transitIsp", c :: cs)] := by
  have hft : getFilterTypes p = [clientIspFacetType, transitIspFacetType] := by
    unfold getFilterTypes; rw [hf]; rfl
  rcases (idsActive_false_iff p.filter1Ids).mp hi1 with h1 | h1 <;>
    constructor <;>
    · simp only [getCombinedTypeAndIds, activeDims]
      rw [hft, hf]
      simp +decide [getCombinedTypeAndIdsCore, combinedEntries, h1, h2, idsActive,
        locationFacetType, transitIspFacetType, sortValues, sortCombined, insertEntry, joinDash,
        dummyEntry]

/-- Facet location with both filters active: combined type
location-clientIsp-transitIsp, triple cross product; the breakdown id is the
filter1 (client ISP) id when breakdownBy is filter1, otherwise the transit
ISP id, and the filter id is the other one. -/
theorem shape_loc_11 (p : Props) (b c : Id) (bs cs : List Id)
    (hf : getFacetType p = locationFacetType)
    (h1 : p.filter1Ids = some (b :: bs)) (h2 : p.filter2Ids = some (c :: cs)) :
    getCombinedTypeAndIds p =
      { combinedType := "location-clientIsp-transitIsp",
        combinedIds :=
          (p.facetItemIds.getD []).flatMap fun locationId =>
            (b :: bs).flatMap fun clientIspId =>
              (c :: cs).map fun transitIspId =>
                { facetItemId := locationId,
                  filterItemId :=
                    if p.breakdownBy = some "filter1" then transitIspId else clientIspId,
                  breakdownByItemId := some
                    (if p.breakdownBy = some "filter1" then clientIspId else transitIspId),
                  combined :=
                    CombinedKey.locationClientIspTransitIsp locationId clientIspId transitIspId } } ∧
    activeDims p =
      [("location", p.facetItemIds.getD []), ("clientIsp", b :: bs), ("transitIsp", c :: cs)] := by
  have hft : getFilterTypes p = [clientIspFacetType, transitIspFacetType] := by
    unfold getFilterTypes; rw [hf]; rfl
  constructor <;>
    · simp only [getCombinedTypeAndIds, activeDims]
      rw [hft, hf]
      simp +decide [getCombinedTypeAndIdsCore, combinedEntries, h1, h2, idsActive, locationFacetType, clientIspFacetType, transitIspFacetType,
        sortValues, sortCombined, insertEntry, joinDash, dummyEntry]

/-- Facet client ISP, no active filter. -/
theorem shape_cli_00 (p : Props)
    (hf : getFacetType p = clientIspFacetType)
    (hi1 : idsActive p.filter1Ids = false) (hi2 : idsActive p.filter2Ids = false) :
    getCombinedTypeAndIds p = { combinedType := "clientIsp", combinedIds := [] } ∧
    activeDims p = [("clientIsp", p.facetItemIds.getD [])] := by
  have hft : getFilterTypes p = [locationFacetType, transitIspFacetType] := by
    unfold getFilterTypes; rw [hf]; rfl
  rcases (idsActive_false_iff p.filter1Ids).mp hi1 with h1 | h1 <;>
    rcases (idsActive_false_iff p.filter2Ids).mp hi2 with h2 | h2 <;>
    constructor <;>
    · simp only [getCombinedTypeAndIds, activeDims]
      rw [hft, hf]
      simp +decide [getCombinedTypeAndIdsCore, combinedEntries, h1, h2, idsActive,
        clientIspFacetType, sortValues, sortCombined, insertEntry, joinDash, dummyEntry]

/-- Facet client ISP with filter1 (location) active: combined type
location-clientIsp; the location dimension iterates outermost, the facet id
is the client ISP id and the filter id the location id. -/
theorem shape_cli_10 (p : Props) (b : Id) (bs : List Id)
    (hf : getFacetType p = clientIspFacetType)
    (h1 : p.filter1Ids = some (b :: bs)) (hi2 : idsActive p.filter2Ids = false) :
    getCombinedTypeAndIds p =
      { combinedType := "location-clientIsp",
        combinedIds :=
          (b :: bs).flatMap fun locationId =>
            (p.facetItemIds.getD []).map fun clientIspId =>
              { facetItemId := clientIspId, filterItemId := locationId,
                breakdownByItemId := none,
                combined := CombinedKey.locationClientIsp locationId clientIspId } } ∧
    activeDims p = [("location", b :: bs), ("clientIsp", p.facetItemIds.getD [])] := by
  have hft : getFilterTypes p = [locationFacetType, transitIspFacetType] := by
    unfold getFilterTypes; rw [hf]; rfl
  rcases (idsActive_false_iff p.filter2Ids).mp hi2 with h2 | h2 <;>
    constructor <;>
    · simp only [getCombinedTypeAndIds, activeDims]
      rw [hft, hf]
      simp +decide [getCombinedTypeAndIdsCore, combinedEntries, h1, h2, idsActive,
        clientIspFacetType, locationFacetType, sortValues, sortCombined, insertEntry, joinDash,
        dummyEntry]

/-- Facet client ISP with filter2 (transit ISP) active: combined type
clientIsp-transitIsp, cross product of facet ids with filter2 ids. -/
theorem shape_cli_01 (p : Props) (c : Id) (cs : List Id)
    (hf : getFacetType p = clientIspFacetType)
    (hi1 : idsActive p.filter1Ids = false) (h2 : p.filter2Ids = some (c :: cs)) :
    getCombinedTypeAndIds p =
      { combinedType := "clientIsp-transitIsp",
        combinedIds :=
          (p.facetItemIds.getD []).flatMap fun clientIspId =>
            (c :: cs).map fun transitIspId =>
              { facetItemId := clientIspId, filterItemId := transitIspId,
                breakdownByItemId := none,
                combined := CombinedKey.clientIspTransitIsp clientIspId transitIspId } } ∧
    activeDims p = [("clientIsp", p.facetItemIds.getD []), ("transitIsp", c :: cs)] := by
  have hft : getFilterTypes p = [locationFacetType, transitIspFacetType] := by
    unfold getFilterTypes; rw [hf]; rfl
  rcases (idsActive_false_iff p.filter1Ids).mp hi1 with h1 | h1 <;>
    constructor <;>
    · simp only [getCombinedTypeAndIds, activeDims]
      rw [hft, hf]
      simp +decide [getCombinedTypeAndIdsCore, combinedEntries, h1, h2, idsActive,
        clientIspFacetType, transitIspFacetType, sortValues, sortCombined, insertEntry, joinDash,
        dummyEntry]

/-- Facet client ISP with both filters active: combined type
location-clientIsp-transitIsp; the breakdown id is the filter1 (location) id
when breakdownBy is filter1, otherwise the transit ISP id, and the filter id
is the other one. -/
theorem shape_cli_11 (p : Props) (b c : Id) (bs cs : List Id)
    (hf : getFacetType p = clientIspFacetType)
    (h1 : p.filter1Ids = some (b :: bs)) (h2 : p.filter2Ids = some (c :: cs)) :
    getCombinedTypeAndIds p =
      { combinedType := "location-clientIsp-transitIsp",
        combinedIds :=
          (b :: bs).flatMap fun locationId =>
            (p.facetItemIds.getD []).flatMap fun clientIspId =>
              (c :: cs).map fun transitIspId =>
                { facetItemId := clientIspId,
                  filterItemId :=
                    if p.breakdownBy = some "filter1" then transitIspId else locationId,
                  breakdownByItemId := some
                    (if p.breakdownBy = some "filter1" then locationId else transitIspId),
                  combined :=
                    CombinedKey.locationClientIspTransitIsp locationId clientIspId transitIspId } } ∧
    activeDims p =
      [("location", b :: bs), ("clientIsp", p.facetItemIds.getD []), ("transitIsp", c :: cs)] := by
  have hft : getFilterTypes p = [locationFacetType, transitIspFacetType] := by
    unfold getFilterTypes; rw [hf]; rfl
  constructor <;>
    · simp only [getCombinedTypeAndIds, activeDims]
      rw [hft, hf]
      simp +decide [getCombinedTypeAndIdsCore, combinedEntries, h1, h2, idsActive,
        clientIspFacetType, locationFacetType, transitIspFacetType, sortValues, sortCombined,
        insertEntry, joinDash, dummyEntry]

/-- Facet transit ISP, no active filter. -/
theorem shape_tra_00 (p : Props)
    (hf : getFacetType p = transitIspFacetType)
    (hi1 : idsActive p.filter1Ids = false) (hi2 : idsActive p.filter2Ids = false) :
    getCombinedTypeAndIds p = { combinedType := "transitIsp", combinedIds := [] } ∧
    activeDims p = [("transitIsp", p.facetItemIds.getD [])] := by
  have hft : getFilterTypes p = [locationFacetType, clientIspFacetType] := by
    unfold getFilterTypes; rw [hf]; rfl
  rcases (idsActive_false_iff p.filter1Ids).mp hi1 with h1 | h1 <;>
    rcases (idsActive_false_iff p.filter2Ids).mp hi2 with h2 | h2 <;>
    constructor <;>
    · simp only [getCombinedTypeAndIds, activeDims]
      rw [hft, hf]
      simp +decide [getCombinedTypeAndIdsCore, combinedEntries, h1, h2, idsActive,
        transitIspFacetType, sortValues, sortCombined, insertEntry, joinDash, dummyEntry]

/-- Facet transit ISP with filter1 (location) active: combined type
location-transitIsp; the facet id is the transit ISP id and the filter id the
location id. -/
theorem shape_tra_10 (p : Props) (b : Id) (bs : List Id)
    (hf : getFacetType p = transitIspFacetType)
    (h1 : p.filter1Ids = some (b :: bs)) (hi2 : idsActive p.filter2Ids = false) :
    getCombinedTypeAndIds p =
      { combinedType := "location-transitIsp",
        combinedIds :=
          (b :: bs).flatMap fun locationId =>
            (p.facetItemIds.getD []).map fun transitIspId =>
              { facetItemId := transitIspId, filterItemId := locationId,
                breakdownByItemId := none,
                combined := CombinedKey.locationTransitIsp locationId transitIspId } } ∧
    activeDims p = [("location", b :: bs), ("transitIsp", p.facetItemIds.getD [])] := by
  have hft : getFilterTypes p = [locationFacetType, clientIspFacetType] := by
    unfold getFilterTypes; rw [hf]; rfl
  rcases (idsActive_false_iff p.filter2Ids).mp hi2 with h2 | h2 <;>
    constructor <;>
    · simp only [getCombinedTypeAndIds, activeDims]
      rw [hft, hf]
      simp +decide [getCombinedTypeAndIdsCore, combinedEntries, h1, h2, idsActive,
        transitIspFacetType, locationFacetType, sortValues, sortCombined, insertEntry, joinDash,
        dummyEntry]

/-- Facet transit ISP with filter2 (client ISP) active: combined type
clientIsp-transitIsp; the facet id is the transit ISP id and the filter id
the client ISP id. -/
theorem shape_tra_01 (p : Props) (c : Id) (cs : List Id)
    (hf : getFacetType p = transitIspFacetType)
    (hi1 : idsActive p.filter1Ids = false) (h2 : p.filter2Ids = some (c :: cs)) :
    getCombinedTypeAndIds p =
      { combinedType := "clientIsp-transitIsp",
        combinedIds :=
          (c :: cs).flatMap fun clientIspId =>
            (p.facetItemIds.getD []).map fun transitIspId =>
              { facetItemId := transitIspId, filterItemId := clientIspId,
                breakdownByItemId := none,
                combined := CombinedKey.clientIspTransitIsp clientIspId transitIspId } } ∧
    activeDims p = [("clientIsp", c :: cs), ("transitIsp", p.facetItemIds.getD [])] := by
  have hft : getFilterTypes p = [locationFacetType, clientIspFacetType] := by
    unfold getFilterTypes; rw [hf]; rfl
  rcases (idsActive_false_iff p.filter1Ids).mp hi1 with h1 | h1 <;>
    constructor <;>
    · simp only [getCombinedTypeAndIds, activeDims]
      rw [hft, hf]
      simp +decide [getCombinedTypeAndIdsCore, combinedEntries, h1, h2, idsActive,
        transitIspFacetType, clientIspFacetType, sortValues, sortCombined, insertEntry, joinDash,
        dummyEntry]

/-- Facet transit ISP with both filters active: combined type
location-clientIsp-transitIsp; the breakdown id is the location id when
breakdownBy is filter1, the client ISP id when breakdownBy is filter2, and
falls through to the transit ISP id otherwise; the filter id is the location
id unless the location dimension is the breakdown, then the client ISP id. -/
theorem shape_tra_11 (p : Props) (b c : Id) (bs cs : List Id)
    (hf : getFacetType p = transitIspFacetType)
    (h1 : p.filter1Ids = some (b :: bs)) (h2 : p.filter2Ids = some (c :: cs)) :
    getCombinedTypeAndIds p =
      { combinedType := "location-clientIsp-transitIsp",
        combinedIds :=
          (b :: bs).flatMap fun locationId =>
            (c :: cs).flatMap fun clientIspId =>
              (p.facetItemIds.getD []).map fun transitIspId =>
                { facetItemId := transitIspId,
                  filterItemId :=
                    if p.breakdownBy = some "filter1" then
                      (if p.breakdownBy = some "filter2" then transitIspId else clientIspId)
                    else locationId,
                  breakdownByItemId := some
                    (if p.breakdownBy = some "filter1" then locationId
                     else if p.breakdownBy = some "filter2" then clientIspId
                     else transitIspId),
                  combined :=
                    CombinedKey.locationClientIspTransitIsp locationId clientIspId transitIspId } } ∧
    activeDims p =
      [("location", b :: bs), ("clientIsp", c :: cs), ("transitIsp", p.facetItemIds.getD [])] := by
  have hft : getFilterTypes p = [locationFacetType, clientIspFacetType] := by
    unfold getFilterTypes; rw [hf]; rfl
  constructor <;>
    · simp only [getCombinedTypeAndIds, activeDims]
      rw [hft, hf]
      simp +decide [getCombinedTypeAndIdsCore, combinedEntries, h1, h2, idsActive,
        transitIspFacetType, locationFacetType, clientIspFacetType, sortValues, sortCombined,
        insertEntry, joinDash, dummyEntry]

/-- C1: for every selection with 2 or 3 active dimensions, the combinedType
string returned by getCombinedTypeAndIds depends only on the set of active
dimension kinds with their id lists (here: the canonically sorted list of
active dimensions), not on which role each dimension occupies: two
selections with the same active dimensions yield the same combinedType. -/
theorem combinedType_role_invariant (p q : Props)
    (_hlen : (activeDims p).length = 2 ∨ (activeDims p).length = 3)
    (hset : activeDims p = activeDims q) :
    (getCombinedTypeAndIds p).combinedType = (getCombinedTypeAndIds q).combinedType := by
  rw [combinedType_eq_joinDash, combinedType_eq_joinDash, hset]

/-- Witness for C1: facet location with client ISP filter, against facet
client ISP with location filter, agree on combinedType. -/
theorem combinedType_role_invariant_witness :
    (((activeDims ⟨some "location", some [1], some [10], none, none⟩).length = 2 ∨
      (activeDims ⟨some "location", some [1], some [10], none, none⟩).length = 3) ∧
     activeDims ⟨some "location", some [1], some [10], none, none⟩ =
       activeDims ⟨some "clientIsp", some [10], some [1], none, none⟩) ∧
    (getCombinedTypeAndIds ⟨some "location", some [1], some [10], none, none⟩).combinedType =
      (getCombinedTypeAndIds ⟨some "clientIsp", some [10], some [1], none, none⟩).combinedType :=
  ⟨⟨Or.inl (by decide), by decide⟩,
    combinedType_role_invariant _ _ (Or.inl (by decide)) (by decide)⟩

/-- C4 counterexample: for facet location with ids 1 and 2 and no active
filter, the combinedType returned is not the empty string (it is the string
location). -/
theorem facet_only_combinedType_counterexample :
    (getCombinedTypeAndIds ⟨some "location", some [1, 2], none, none, none⟩).combinedType ≠ "" := by
  decide

/-- C4 amended: for the selection facetType location, facetItemIds [1, 2]
and no active filters, getCombinedTypeAndIds returns the combinedType
"location" (the bare facet name, which matches none of the four recognized
combined types) together with the empty combinedIds list. -/
theorem facet_only_selection_result :
    getCombinedTypeAndIds ⟨some "location", some [1, 2], none, none, none⟩ =
      { combinedType := "location", combinedIds := [] } := by
  decide

/-- C6 counterexample: for a facet type value that is none of the three known
kinds, getFilterTypes does not return the empty list. -/
theorem getFilterTypes_unknown_counterexample :
    getFilterTypes ⟨some "bogus", none, none, none, none⟩ ≠ [] := by
  decide

/-- C6 amended: an unknown facet type value falls back to the default
location entry inside getFacetType, so getFilterTypes returns the location
answer [clientIsp, transitIsp] rather than the empty list; for the three
known facet types it returns exactly the two other types in the fixed
deterministic order. -/
theorem getFilterTypes_resolution (p : Props)
    (h : p.facetType ≠ some "location" ∧ p.facetType ≠ some "clientIsp" ∧
      p.facetType ≠ some "transitIsp") :
    getFilterTypes p = [clientIspFacetType, transitIspFacetType] ∧
    getFilterTypes { p with facetType := some "location" } =
      [clientIspFacetType, transitIspFacetType] ∧
    getFilterTypes { p with facetType := some "clientIsp" } =
      [locationFacetType, transitIspFacetType] ∧
    getFilterTypes { p with facetType := some "transitIsp" } =
      [locationFacetType, clientIspFacetType] := by
  obtain ⟨hl, hc, ht⟩ := h
  have hfind : facetTypes.find? (fun facetType => some facetType.value == p.facetType) = none := by
    rw [List.find?_eq_none]
    intro x hx
    simp only [facetTypes, List.mem_cons, List.not_mem_nil, or_false] at hx
    rcases hx with rfl | rfl | rfl <;>
      simp [locationFacetType, clientIspFacetType, transitIspFacetType] <;>
      intro heq
    · exact hl heq.symm
    · exact hc heq.symm
    · exact ht heq.symm
  have hfacet : getFacetType p = locationFacetType := by
    unfold getFacetType extractFacetType
    rw [hfind]
  refine ⟨?_, ?_, ?_, ?_⟩
  · unfold getFilterTypes
    rw [hfacet]
    rfl
  · rfl
  · rfl
  · rfl

/-- Witness for C6: the unknown facet type value bogus. -/
theorem getFilterTypes_resolution_witness :
    ((some "bogus" : Option String) ≠ some "location" ∧
      (some "bogus" : Option String) ≠ some "clientIsp" ∧
      (some "bogus" : Option String) ≠ some "transitIsp") ∧
    getFilterTypes ⟨some "bogus", none, none, none, none⟩ =
      [clientIspFacetType, transitIspFacetType] :=
  ⟨by decide,
    (getFilterTypes_resolution ⟨some "bogus", none, none, none, none⟩ (by decide)).1⟩

/-- Length of a two-level nested iteration: the product of the lengths. -/
theorem length_flatMap_map {A B C : Type} (l1 : List A) (l2 : List B) (f : A → B → C) :
    (l1.flatMap fun a => l2.map (f a)).length = l1.length * l2.length := by
  induction l1 with
  | nil => simp
  | cons x xs ih =>
    rw [List.flatMap_cons, List.length_append, List.length_map, ih, List.length_cons]
    ring

/-- Length of a three-level nested iteration: the product of the lengths. -/
theorem length_flatMap_flatMap_map {A B C D : Type} (l1 : List A) (l2 : List B) (l3 : List C)
    (f : A → B → C → D) :
    (l1.flatMap fun a => l2.flatMap fun b => l3.map (f a b)).length =
      l1.length * (l2.length * l3.length) := by
  induction l1 with
  | nil => simp
  | cons x xs ih =>
    rw [List.flatMap_cons, List.length_append, length_flatMap_map, ih, List.length_cons]
    ring

/-- C3: whenever the combinedType is one of the four recognized values, the
combinedIds list is the full cross product: its length is the product of the
id-list lengths of the active dimensions. -/
theorem combinedIds_length_cross_product (p : Props)
    (h : (getCombinedTypeAndIds p).combinedType ∈
      (["location-clientIsp", "location-transitIsp", "clientIsp-transitIsp",
        "location-clientIsp-transitIsp"] : List String)) :
    (getCombinedTypeAndIds p).combinedIds.length =
      ((activeDims p).map (fun d => d.2.length)).prod := by
  rcases getFacetType_cases p with hf | hf | hf
  · cases h1b : idsActive p.filter1Ids with
    | false =>
      cases h2b : idsActive p.filter2Ids with
      | false =>
        obtain ⟨hshape, _⟩ := shape_loc_00 p hf h1b h2b
        rw [hshape] at h
        simp at h
      | true =>
        obtain ⟨c, cs, h2⟩ := (idsActive_true_iff _).mp h2b
        obtain ⟨hshape, hdims⟩ := shape_loc_01 p c cs hf h1b h2
        rw [hshape, hdims]
        generalize (c :: cs) = L
        simp [-List.length_flatMap, length_flatMap_map, Nat.mul_comm, Nat.mul_left_comm]
    | true =>
      obtain ⟨b, bs, h1⟩ := (idsActive_true_iff _).mp h1b
      cases h2b : idsActive p.filter2Ids with
      | false =>
        obtain ⟨hshape, hdims⟩ := shape_loc_10 p b bs hf h1 h2b
        rw [hshape, hdims]
        generalize (b :: bs) = L
        simp [-List.length_flatMap, length_flatMap_map, Nat.mul_comm, Nat.mul_left_comm]
      | true =>
        obtain ⟨c, cs, h2⟩ := (idsActive_true_iff _).mp h2b
        obtain ⟨hshape, hdims⟩ := shape_loc_11 p b c bs cs hf h1 h2
        rw [hshape, hdims]
        generalize (b :: bs) = L1
        generalize (c :: cs) = L2
        simp [-List.length_flatMap, length_flatMap_flatMap_map, Nat.mul_comm, Nat.mul_left_comm]
  · cases h1b : idsActive p.filter1Ids with
    | false =>
      cases h2b : idsActive p.filter2Ids with
      | false =>
        obtain ⟨hshape, _⟩ := shape_cli_00 p hf h1b h2b
        rw [hshape] at h
        simp at h
      | true =>
        obtain ⟨c, cs, h2⟩ := (idsActive_true_iff _).mp h2b
        obtain ⟨hshape, hdims⟩ := shape_cli_01 p c cs hf h1b h2
        rw [hshape, hdims]
        generalize (c :: cs) = L
        simp [-List.length_flatMap, length_flatMap_map, Nat.mul_comm, Nat.mul_left_comm]
    | true =>
      obtain ⟨b, bs, h1⟩ := (idsActive_true_iff _).mp h1b
      cases h2b : idsActive p.filter2Ids with
      | false =>
        obtain ⟨hshape, hdims⟩ := shape_cli_10 p b bs hf h1 h2b
        rw [hshape, hdims]
        generalize (b :: bs) = L
        simp [-List.length_flatMap, length_flatMap_map, Nat.mul_comm, Nat.mul_left_comm]
      | true =>
        obtain ⟨c, cs, h2⟩ := (idsActive_true_iff _).mp h2b
        obtain ⟨hshape, hdims⟩ := shape_cli_11 p b c bs cs hf h1 h2
        rw [hshape, hdims]
        generalize (b :: bs) = L1
        generalize (c :: cs) = L2
        simp [-List.length_flatMap, length_flatMap_flatMap_map, Nat.mul_comm, Nat.mul_left_comm]
  · cases h1b : idsActive p.filter1Ids with
    | false =>
      cases h2b : idsActive p.filter2Ids with
      | false =>
        obtain ⟨hshape, _⟩ := shape_tra_00 p hf h1b h2b
        rw [hshape] at h
        simp at h
      | true =>
        obtain ⟨c, cs, h2⟩ := (idsActive_true_iff _).mp h2b
        obtain ⟨hshape, hdims⟩ := shape_tra_01 p c cs hf h1b h2
        rw [hshape, hdims]
        generalize (c :: cs) = L
        simp [-List.length_flatMap, length_flatMap_map, Nat.mul_comm, Nat.mul_left_comm]
    | true =>
      obtain ⟨b, bs, h1⟩ := (idsActive_true_iff _).mp h1b
      cases h2b : idsActive p.filter2Ids with
      | false =>
        obtain ⟨hshape, hdims⟩ := shape_tra_10 p b bs hf h1 h2b
        rw [hshape, hdims]
        generalize (b :: bs) = L
        simp [-List.length_flatMap, length_flatMap_map, Nat.mul_comm, Nat.mul_left_comm]
      | true =>
        obtain ⟨c, cs, h2⟩ := (idsActive_true_iff _).mp h2b
        obtain ⟨hshape, hdims⟩ := shape_tra_11 p b c bs cs hf h1 h2
        rw [hshape, hdims]
        generalize (b :: bs) = L1
        generalize (c :: cs) = L2
        simp [-List.length_flatMap, length_flatMap_flatMap_map, Nat.mul_comm, Nat.mul_left_comm]

/-- Witness for C3: a 2 by 1 by 2 selection produces 4 combinations. -/
theorem combinedIds_length_cross_product_witness :
    (getCombinedTypeAndIds ⟨some "location", some [1, 2], some [10], some [100, 101],
        some "filter1"⟩).combinedType ∈
      (["location-clientIsp", "location-transitIsp", "clientIsp-transitIsp",
        "location-clientIsp-transitIsp"] : List String) ∧
    (getCombinedTypeAndIds ⟨some "location", some [1, 2], some [10], some [100, 101],
        some "filter1"⟩).combinedIds.length =
      ((activeDims ⟨some "location", some [1, 2], some [10], some [100, 101],
        some "filter1"⟩).map (fun d => d.2.length)).prod :=
  ⟨by decide, combinedIds_length_cross_product _ (by decide)⟩

/-- C2: in the 3-dimension case with breakdownBy filter1, every generated
combination carries as breakdownByItemId the id contributed by the filter1
dimension and as filterItemId the id contributed by the filter2 dimension,
where the contribution of a dimension is read off the composite key. -/
theorem breakdown_filter1_assignment (p : Props) (t1 t2 : FacetType) (e : CombinedId)
    (hft : getFilterTypes p = [t1, t2])
    (h1 : idsActive p.filter1Ids = true) (h2 : idsActive p.filter2Ids = true)
    (hbd : p.breakdownBy = some "filter1")
    (he : e ∈ (getCombinedTypeAndIds p).combinedIds) :
    (getCombinedTypeAndIds p).combinedType = "location-clientIsp-transitIsp" ∧
    e.breakdownByItemId = keyComp e.combined t1.value ∧
    some e.filterItemId = keyComp e.combined t2.value := by
  obtain ⟨b, bs, h1e⟩ := (idsActive_true_iff _).mp h1
  obtain ⟨c, cs, h2e⟩ := (idsActive_true_iff _).mp h2
  rcases getFilterTypes_cases p with ⟨hf, hft2⟩ | ⟨hf, hft2⟩ | ⟨hf, hft2⟩ <;>
    rw [hft] at hft2 <;>
    injection hft2 with e1 rest <;>
    injection rest with e2 _ <;>
    subst e1 <;> subst e2
  · obtain ⟨hshape, _⟩ := shape_loc_11 p b c bs cs hf h1e h2e
    rw [hshape] at he ⊢
    simp only [List.mem_flatMap, List.mem_map] at he
    obtain ⟨l, _, cc, _, t, _, rfl⟩ := he
    refine ⟨rfl, ?_, ?_⟩ <;> simp +decide [keyComp, hbd, clientIspFacetType, transitIspFacetType]
  · obtain ⟨hshape, _⟩ := shape_cli_11 p b c bs cs hf h1e h2e
    rw [hshape] at he ⊢
    simp only [List.mem_flatMap, List.mem_map] at he
    obtain ⟨l, _, cc, _, t, _, rfl⟩ := he
    refine ⟨rfl, ?_, ?_⟩ <;> simp +decide [keyComp, hbd, locationFacetType, transitIspFacetType]
  · obtain ⟨hshape, _⟩ := shape_tra_11 p b c bs cs hf h1e h2e
    rw [hshape] at he ⊢
    simp only [List.mem_flatMap, List.mem_map] at he
    obtain ⟨l, _, cc, _, t, _, rfl⟩ := he
    refine ⟨rfl, ?_, ?_⟩ <;> simp +decide [keyComp, hbd, locationFacetType, clientIspFacetType]

/-- Witness for C2: facet location with ids 1, filter1 client ISP id 10,
filter2 transit ISP id 100, breakdownBy filter1. -/
theorem breakdown_filter1_assignment_witness :
    getFilterTypes ⟨some "location", some [1], some [10], some [100], some "filter1"⟩ =
      [clientIspFacetType, transitIspFacetType] ∧
    idsActive (some [10] : Option (List Id)) = true ∧
    idsActive (some [100] : Option (List Id)) = true ∧
    (⟨1, 100, some 10, CombinedKey.locationClientIspTransitIsp 1 10 100⟩ : CombinedId) ∈
      (getCombinedTypeAndIds
        ⟨some "location", some [1], some [10], some [100], some "filter1"⟩).combinedIds ∧
    ((getCombinedTypeAndIds
        ⟨some "location", some [1], some [10], some [100], some "filter1"⟩).combinedType =
      "location-clientIsp-transitIsp" ∧
     (⟨1, 100, some 10, CombinedKey.locationClientIspTransitIsp 1 10 100⟩ :
        CombinedId).breakdownByItemId =
       keyComp (CombinedKey.locationClientIspTransitIsp 1 10 100) clientIspFacetType.value ∧
     some (⟨1, 100, some 10, CombinedKey.locationClientIspTransitIsp 1 10 100⟩ :
        CombinedId).filterItemId =
       keyComp (CombinedKey.locationClientIspTransitIsp 1 10 100) transitIspFacetType.value) :=
  ⟨by decide, by decide, by decide, by decide,
    breakdown_filter1_assignment _ _ _ _ (by decide) (by decide) (by decide) rfl (by decide)⟩

/-- C10: in the 3-dimension case with breakdownBy neither filter1 nor
filter2, both filter dimensions carry an explicit false breakdownBy flag, so
the breakdown id falls through to the transit ISP id of each combination and
the filter id resolves to the id of the filter dimension that comes first in
canonical dimension order (the filter1 dimension). -/
theorem breakdown_none_fallthrough (p : Props) (t1 t2 : FacetType) (e : CombinedId)
    (hft : getFilterTypes p = [t1, t2])
    (h1 : idsActive p.filter1Ids = true) (h2 : idsActive p.filter2Ids = true)
    (hbd1 : p.breakdownBy ≠ some "filter1") (hbd2 : p.breakdownBy ≠ some "filter2")
    (he : e ∈ (getCombinedTypeAndIds p).combinedIds) :
    (getCombinedTypeAndIds p).combinedType = "location-clientIsp-transitIsp" ∧
    e.breakdownByItemId = keyComp e.combined "transitIsp" ∧
    some e.filterItemId = keyComp e.combined t1.value := by
  obtain ⟨b, bs, h1e⟩ := (idsActive_true_iff _).mp h1
  obtain ⟨c, cs, h2e⟩ := (idsActive_true_iff _).mp h2
  rcases getFilterTypes_cases p with ⟨hf, hft2⟩ | ⟨hf, hft2⟩ | ⟨hf, hft2⟩ <;>
    rw [hft] at hft2 <;>
    injection hft2 with e1 rest <;>
    injection rest with e2 _ <;>
    subst e1 <;> subst e2
  · obtain ⟨hshape, _⟩ := shape_loc_11 p b c bs cs hf h1e h2e
    rw [hshape] at he ⊢
    simp only [List.mem_flatMap, List.mem_map] at he
    obtain ⟨l, _, cc, _, t, _, rfl⟩ := he
    refine ⟨rfl, ?_, ?_⟩ <;>
      simp +decide [keyComp, if_neg hbd1, if_neg hbd2, clientIspFacetType]
  · obtain ⟨hshape, _⟩ := shape_cli_11 p b c bs cs hf h1e h2e
    rw [hshape] at he ⊢
    simp only [List.mem_flatMap, List.mem_map] at he
    obtain ⟨l, _, cc, _, t, _, rfl⟩ := he
    refine ⟨rfl, ?_, ?_⟩ <;>
      simp +decide [keyComp, if_neg hbd1, if_neg hbd2, locationFacetType]
  · obtain ⟨hshape, _⟩ := shape_tra_11 p b c bs cs hf h1e h2e
    rw [hshape] at he ⊢
    simp only [List.mem_flatMap, List.mem_map] at he
    obtain ⟨l, _, cc, _, t, _, rfl⟩ := he
    refine ⟨rfl, ?_, ?_⟩ <;>
      simp +decide [keyComp, if_neg hbd1, if_neg hbd2, locationFacetType]

/-- Witness for C10: facet location, filter ids 10 and 100, breakdownBy
absent. -/
theorem breakdown_none_fallthrough_witness :
    getFilterTypes ⟨some "location", some [1], some [10], some [100], none⟩ =
      [clientIspFacetType, transitIspFacetType] ∧
    idsActive (some [10] : Option (List Id)) = true ∧
    idsActive (some [100] : Option (List Id)) = true ∧
    (none : Option String) ≠ some "filter1" ∧
    (none : Option String) ≠ some "filter2" ∧
    (⟨1, 10, some 100, CombinedKey.locationClientIspTransitIsp 1 10 100⟩ : CombinedId) ∈
      (getCombinedTypeAndIds ⟨some "location", some [1], some [10], some [100], none⟩).combinedIds ∧
    ((getCombinedTypeAndIds
        ⟨some "location", some [1], some [10], some [100], none⟩).combinedType =
      "location-clientIsp-transitIsp" ∧
     (⟨1, 10, some 100, CombinedKey.locationClientIspTransitIsp 1 10 100⟩ :
        CombinedId).breakdownByItemId =
       keyComp (CombinedKey.locationClientIspTransitIsp 1 10 100) "transitIsp" ∧
     some (⟨1, 10, some 100, CombinedKey.locationClientIspTransitIsp 1 10 100⟩ :
        CombinedId).filterItemId =
       keyComp (CombinedKey.locationClientIspTransitIsp 1 10 100) clientIspFacetType.value) :=
  ⟨by decide, by decide, by decide, by decide, by decide, by decide,
    breakdown_none_fallthrough ⟨some "location", some [1], some [10], some [100], none⟩
      clientIspFacetType transitIspFacetType
      ⟨1, 10, some 100, CombinedKey.locationClientIspTransitIsp 1 10 100⟩
      (by decide) (by decide) (by decide) (by decide) (by decide) (by decide)⟩

/-- The statuses accumulated by the combineTimeSeries reduce are the mapped
statuses of the inputs, in order. -/
theorem tsStep_foldl_statuses {A : Type} (tss : List (Resource A)) (acc : TSAccum A) :
    (tss.foldl tsStep acc).statuses = acc.statuses ++ tss.map statusRes := by
  induction tss generalizing acc with
  | nil => simp
  | cons x xs ih => simp [tsStep, ih]

/-- The status combinator returns error whenever error occurs in the list. -/
theorem statusList_error (l : List Status) (h : Status.error ∈ l) :
    statusList l = Status.error := by
  simp [statusList, List.elem_iff, h]

/-- C5: if any contributing time series resource has status error, the
combined status of the group computed by combineTimeSeries is error,
whatever the other statuses and whatever the external counting utility. -/
theorem error_status_propagates {A H B : Type} (computeTimeSeriesCounts : CombinedTSPre A → B)
    (items : List (CombinedItem A H)) (it : CombinedItem A H)
    (hit : it ∈ items) (herr : it.data.time.timeSeries.status = Status.error) :
    (combineTimeSeries computeTimeSeriesCounts items).status = Status.error := by
  unfold combineTimeSeries
  simp only []
  rw [tsStep_foldl_statuses]
  apply statusList_error
  simp only [List.nil_append, List.map_map, List.mem_map]
  exact ⟨it, hit, by simp [statusRes, herr]⟩

/-- Witness for C5: a single item whose time series errored. -/
theorem error_status_propagates_witness :
    exErrItem ∈ [exErrItem] ∧
    exErrItem.data.time.timeSeries.status = Status.error ∧
    (combineTimeSeries (fun _ => (0 : Nat)) [exErrItem]).status = Status.error :=
  ⟨by decide, by decide,
    error_status_propagates (fun _ => (0 : Nat)) [exErrItem] exErrItem (by decide) (by decide)⟩

/-- C7: when the combinedItems input to the grouping step is undefined or an
empty list, combineData and both selectors built on it (getCombinedTimeSeries
and getCombinedHourly) return undefined, not an empty mapping. -/
theorem grouping_empty_input_undefined {A H B G M W : Type}
    (combine : List (CombinedItem A H) → M → G)
    (computeTimeSeriesCounts : CombinedTSPre A → B) (wrangleHourly : Option H → M → W)
    (combinedType : String) (viewMetric : M)
    (combinedItems : Option (List (CombinedItem A H)))
    (h : combinedItems = none ∨ combinedItems = some []) :
    combineData combine combinedType combinedItems viewMetric = none ∧
    getCombinedTimeSeries computeTimeSeriesCounts combinedType combinedItems viewMetric = none ∧
    getCombinedHourly wrangleHourly combinedType combinedItems viewMetric = none := by
  rcases h with rfl | rfl <;>
    exact ⟨rfl, rfl, rfl⟩

/-- Witness for C7: absent combined items. -/
theorem grouping_empty_input_undefined_witness :
    ((none : Option (List (CombinedItem Nat Nat))) = none ∨
      (none : Option (List (CombinedItem Nat Nat))) = some []) ∧
    (combineData (fun _ _ => (0 : Nat)) "location-clientIsp"
        (none : Option (List (CombinedItem Nat Nat))) (0 : Nat) = none ∧
     getCombinedTimeSeries (fun _ => (0 : Nat)) "location-clientIsp"
        (none : Option (List (CombinedItem Nat Nat))) (0 : Nat) = none ∧
     getCombinedHourly (fun _ _ => (0 : Nat)) "location-clientIsp"
        (none : Option (List (CombinedItem Nat Nat))) (0 : Nat) = none) :=
  ⟨Or.inl rfl,
    grouping_empty_input_undefined (fun _ _ => (0 : Nat)) (fun _ => (0 : Nat))
      (fun _ _ => (0 : Nat)) "location-clientIsp" 0 none (Or.inl rfl)⟩

/-- C8: with the store selected by combinedType, getCombinedItems keeps
exactly the combinations whose composite key holds a record: its length is
bounded by the combination count, every output entry carries a present
record for its combination, every combination with a present record appears,
and an unrecognized combinedType yields the empty list. -/
theorem getCombinedItems_join_lookup {A H : Type} (ctai : CombinedTypeAndIds)
    (locationClientIsps locationTransitIsps clientIspTransitIsps locationClientIspTransitIsps :
      CombinedKey → Option (CombinedRecord A H))
    (src : CombinedKey → Option (CombinedRecord A H))
    (hsrc : sourceMapLookup locationClientIsps locationTransitIsps clientIspTransitIsps
      locationClientIspTransitIsps ctai.combinedType = some src) :
    (getCombinedItems ctai locationClientIsps locationTransitIsps clientIspTransitIsps
        locationClientIspTransitIsps).length ≤ ctai.combinedIds.length ∧
    (∀ it ∈ getCombinedItems ctai locationClientIsps locationTransitIsps clientIspTransitIsps
        locationClientIspTransitIsps,
      it.id ∈ ctai.combinedIds ∧ src it.id.combined = some it.data) ∧
    (∀ cid ∈ ctai.combinedIds, (src cid.combined).isSome →
      ∃ it ∈ getCombinedItems ctai locationClientIsps locationTransitIsps clientIspTransitIsps
        locationClientIspTransitIsps, it.id = cid) ∧
    (∀ ct2 : String, sourceMapLookup locationClientIsps locationTransitIsps clientIspTransitIsps
        locationClientIspTransitIsps ct2 = none →
      getCombinedItems ⟨ct2, ctai.combinedIds⟩ locationClientIsps locationTransitIsps
        clientIspTransitIsps locationClientIspTransitIsps = []) := by
  have hmain : getCombinedItems ctai locationClientIsps locationTransitIsps clientIspTransitIsps
      locationClientIspTransitIsps =
      ctai.combinedIds.filterMap fun id =>
        (src id.combined).map fun data => { id := id, data := data } := by
    unfold getCombinedItems
    rw [hsrc]
  refine ⟨?_, ?_, ?_, ?_⟩
  · rw [hmain]
    exact List.length_filterMap_le _ _
  · intro it hit
    rw [hmain, List.mem_filterMap] at hit
    obtain ⟨cid, hcid, hmap⟩ := hit
    rw [Option.map_eq_some'] at hmap
    obtain ⟨data, hdata, rfl⟩ := hmap
    exact ⟨hcid, hdata⟩
  · intro cid hcid hsome
    obtain ⟨data, hdata⟩ := Option.isSome_iff_exists.mp hsome
    refine ⟨{ id := cid, data := data }, ?_, rfl⟩
    rw [hmain, List.mem_filterMap]
    exact ⟨cid, hcid, by rw [hdata]; rfl⟩
  · intro ct2 h2
    unfold getCombinedItems
    rw [h2]

/-- Witness for C8: a two-combination selection against a store holding only
the first key. -/
theorem getCombinedItems_join_lookup_witness :
    sourceMapLookup exStoreLci exStoreEmpty exStoreEmpty exStoreEmpty exCtai.combinedType =
      some exStoreLci ∧
    ((getCombinedItems exCtai exStoreLci exStoreEmpty exStoreEmpty exStoreEmpty).length ≤
        exCtai.combinedIds.length ∧
     (∀ it ∈ getCombinedItems exCtai exStoreLci exStoreEmpty exStoreEmpty exStoreEmpty,
       it.id ∈ exCtai.combinedIds ∧ exStoreLci it.id.combined = some it.data) ∧
     (∀ cid ∈ exCtai.combinedIds, (exStoreLci cid.combined).isSome →
       ∃ it ∈ getCombinedItems exCtai exStoreLci exStoreEmpty exStoreEmpty exStoreEmpty,
         it.id = cid) ∧
     (∀ ct2 : String, sourceMapLookup exStoreLci exStoreEmpty exStoreEmpty exStoreEmpty ct2 =
        none →
       getCombinedItems ⟨ct2, exCtai.combinedIds⟩ exStoreLci exStoreEmpty exStoreEmpty
         exStoreEmpty = [])) :=
  ⟨by rfl,
    getCombinedItems_join_lookup exCtai exStoreLci exStoreEmpty exStoreEmpty exStoreEmpty
      exStoreLci (by rfl)⟩

/-- C9: the data list returned by topFilter never exceeds 20 entries and
contains no already selected id: every member fails the selected-id test on
the filter type id key. -/
theorem topFilter_truncates_excludes (topState : String → Resource (List TopItem))
    (facetType filterType : FacetType) (filterIds : List Id) (d : TopItem)
    (hd : d ∈ (topFilter topState facetType filterType filterIds).data) :
    (topFilter topState facetType filterType filterIds).data.length ≤ 20 ∧
    jsIncludes filterIds (objGet d filterType.idKey) = false := by
  constructor
  · unfold topFilter
    simp [List.length_take]
  · unfold topFilter at hd
    simp only [] at hd
    have hd2 := List.take_subset _ _ hd
    rw [List.mem_filter] at hd2
    simpa using hd2.2

/-- Witness for C9: 25 candidates with ids 0 to 24 and selected ids 1, 2, 3;
the item with id 0 survives, the output is capped at 20 and excludes the
selected ids. -/
theorem topFilter_truncates_excludes_witness :
    ([("clientIspId", 0)] : TopItem) ∈
      (topFilter (fun _ => ⟨Status.success, some exTopItems⟩) locationFacetType
        clientIspFacetType [1, 2, 3]).data ∧
    ((topFilter (fun _ => ⟨Status.success, some exTopItems⟩) locationFacetType
        clientIspFacetType [1, 2, 3]).data.length ≤ 20 ∧
     jsIncludes [1, 2, 3] (objGet [("clientIspId", 0)] clientIspFacetType.idKey) = false) :=
  ⟨by decide,
    topFilter_truncates_excludes (fun _ => ⟨Status.success, some exTopItems⟩) locationFacetType
      clientIspFacetType [1, 2, 3] [("clientIspId", 0)] (by decide)⟩

end CompareSel
